import Mathlib

set_option maxRecDepth 4000

deriving instance DecidableEq for Except

/- Verification of the Cosmos chain-family adapter of wormhole-connect
   (src/sdk/src/contexts/cosmos/context.ts), together with executable models
   of the external primitives it calls: the bech32 codec backing the
   cosmos.canonicalAddress / cosmos.humanAddress helpers of
   @certusone/wormhole-sdk, the keccak-256 hash used by ethers, and the hex,
   base64 and zero-padding utilities of ethers and Node.

   Machine integers are modelled as Nat; every bitwise computation below
   stays within the ranges where JavaScript 32-bit semantics and Nat agree,
   as noted at each definition. -/

namespace WormholeCosmos

/- ## Hex and byte helpers (Node Buffer / ethers semantics) -/

def hexCharsLower : List Char := "0123456789abcdef".data

def hexDigit (n : Nat) : Char := hexCharsLower.getD n '0'

/-- Hex digit value; accepts both cases, as Node's Buffer.from(_, hex) and
ethers' isHexString do. -/
def hexVal (c : Char) : Option Nat :=
  match hexCharsLower.findIdx? (fun d => d = c) with
  | some i => some i
  | none =>
    match "ABCDEF".data.findIdx? (fun d => d = c) with
    | some i => some (10 + i)
    | none => none

/-- Node's Buffer.from(str, hex): decodes two characters per byte and stops
at the first invalid character or dangling odd nibble. -/
def hexPairsToBytes : List Char → List Nat
  | c1 :: c2 :: rest =>
    match hexVal c1, hexVal c2 with
    | some h, some l => (16 * h + l) :: hexPairsToBytes rest
    | _, _ => []
  | _ => []

def bytesToHexChars : List Nat → List Char
  | [] => []
  | b :: rest => hexDigit (b / 16) :: hexDigit (b % 16) :: bytesToHexChars rest

theorem hexVal_hexDigit : ∀ n < 16, hexVal (hexDigit n) = some n := by decide

theorem hexPairsToBytes_bytesToHexChars (bs : List Nat) (h : ∀ b ∈ bs, b < 256) :
    hexPairsToBytes (bytesToHexChars bs) = bs := by
  induction bs with
  | nil => rfl
  | cons b rest ih =>
    have hb : b < 256 := h b (by simp)
    have h1 : hexVal (hexDigit (b / 16)) = some (b / 16) :=
      hexVal_hexDigit _ (by omega)
    have h2 : hexVal (hexDigit (b % 16)) = some (b % 16) :=
      hexVal_hexDigit _ (by omega)
    have hrest : hexPairsToBytes (bytesToHexChars rest) = rest :=
      ih (fun x hx => h x (by simp [hx]))
    simp [bytesToHexChars, hexPairsToBytes, h1, h2, hrest]
    omega

def lowerAsciiChar (c : Char) : Char :=
  if 'A' ≤ c ∧ c ≤ 'Z' then Char.ofNat (c.toNat + 32) else c

def upperAsciiChar (c : Char) : Char :=
  if 'a' ≤ c ∧ c ≤ 'z' then Char.ofNat (c.toNat - 32) else c

/- ## Base64 (Node Buffer.toString(base64) semantics, standard alphabet) -/

def base64Alphabet : List Char :=
  "ABCDEFGHIJKLMNOPQRSTUVWXYZabcdefghijklmnopqrstuvwxyz0123456789+/".data

def b64c (n : Nat) : Char := base64Alphabet.getD n 'A'

def base64Chunks : List Nat → List Char
  | b1 :: b2 :: b3 :: rest =>
    let n := b1 * 65536 + b2 * 256 + b3
    b64c ((n >>> 18) &&& 63) :: b64c ((n >>> 12) &&& 63) ::
      b64c ((n >>> 6) &&& 63) :: b64c (n &&& 63) :: base64Chunks rest
  | [b1, b2] =>
    let n := b1 * 65536 + b2 * 256
    [b64c ((n >>> 18) &&& 63), b64c ((n >>> 12) &&& 63), b64c ((n >>> 6) &&& 63), '=']
  | [b1] =>
    let n := b1 * 65536
    [b64c ((n >>> 18) &&& 63), b64c ((n >>> 12) &&& 63), '=', '=']
  | [] => []

def base64Encode (bytes : List Nat) : String := String.mk (base64Chunks bytes)

/- ## The bech32 codec (model of the bech32 npm package, as used by
   @certusone/wormhole-sdk's cosmos address helpers)

   All arithmetic fits in 30 bits, where JavaScript's signed 32-bit bitwise
   operators agree with Nat. -/

def bech32Alphabet : List Char := "qpzry9x8gf2tvdw0s3jn54khce6mua7l".data

def bech32Generator : List Nat :=
  [0x3b6a57b2, 0x26508e6d, 0x1ea119fa, 0x3d4233dd, 0x2a1462b3]

def polymodStep (pre : Nat) : Nat :=
  let b := pre >>> 25
  (List.range 5).foldl
    (fun chk i => if (b >>> i) &&& 1 = 1 then chk ^^^ bech32Generator.getD i 0 else chk)
    ((pre &&& 0x1ffffff) <<< 5)

def prefixChk (hrp : String) : Option Nat :=
  if hrp.data.any (fun c => c.toNat < 33 || 126 < c.toNat) then none
  else
    let chk1 := hrp.data.foldl (fun chk c => polymodStep chk ^^^ (c.toNat >>> 5)) 1
    let chk2 := polymodStep chk1
    some (hrp.data.foldl (fun chk c => polymodStep chk ^^^ (c.toNat &&& 31)) chk2)

/-- Inner while-loop of the bech32 package's convert function: emit outBits-sized
chunks while at least outBits bits are pending.  fuel is instantiated with the
pending bit count, which bounds the iteration count. -/
def drainBits (outBits maxV value : Nat) : Nat → Nat → List Nat → Nat × List Nat
  | 0, bits, acc => (bits, acc)
  | fuel + 1, bits, acc =>
    if outBits ≤ bits then
      drainBits outBits maxV value fuel (bits - outBits)
        (acc ++ [(value >>> (bits - outBits)) &&& maxV])
    else (bits, acc)

/-- The bech32 package's convert(data, inBits, outBits, pad).  JavaScript keeps
`value` masked to 32 bits; every chunk extracted below reads only bit positions
strictly below the pending-bit count (at most 12), so Nat gives the same chunks. -/
def convertBits (inBits outBits : Nat) (pad : Bool) (data : List Nat) : Option (List Nat) :=
  let maxV := (1 <<< outBits) - 1
  let st := data.foldl
    (fun (s : Nat × Nat × List Nat) d =>
      let value := (s.1 <<< inBits) ||| d
      let bitsIn := s.2.1 + inBits
      let res := drainBits outBits maxV value bitsIn bitsIn s.2.2
      (value, res.1, res.2))
    (0, 0, [])
  if pad then
    if 0 < st.2.1 then some (st.2.2 ++ [(st.1 <<< (outBits - st.2.1)) &&& maxV])
    else some st.2.2
  else if inBits ≤ st.2.1 then none
  else if (st.1 <<< (outBits - st.2.1)) &&& maxV ≠ 0 then none
  else some st.2.2

def toWords (bytes : List Nat) : List Nat := (convertBits 8 5 true bytes).getD []

def fromWords (words : List Nat) : Option (List Nat) := convertBits 5 8 false words

def lastIdxOf (l : List Char) (c : Char) : Option Nat :=
  l.enum.foldl (fun acc p => if p.2 = c then some p.1 else acc) none

def charToWord (c : Char) : Option Nat := bech32Alphabet.findIdx? (fun d => d = c)

def bech32Encode (hrp : String) (words : List Nat) : Option String :=
  if 90 < hrp.length + 7 + words.length then none
  else
    let hrpLow := String.mk (hrp.data.map lowerAsciiChar)
    match prefixChk hrpLow with
    | none => none
    | some chk0 =>
      if words.any (fun x => x >>> 5 != 0) then none
      else
        let chk1 := words.foldl (fun chk x => polymodStep chk ^^^ x) chk0
        let chk2 := (polymodStep (polymodStep (polymodStep
          (polymodStep (polymodStep (polymodStep chk1)))))) ^^^ 1
        some (String.mk (hrpLow.data ++ ['1'] ++ words.map (fun x => bech32Alphabet.getD x 'q')
          ++ (List.range 6).map (fun i => bech32Alphabet.getD ((chk2 >>> ((5 - i) * 5)) &&& 31) 'q')))

def bech32Decode (str : String) : Option (String × List Nat) :=
  if str.length < 8 then none
  else if 90 < str.length then none
  else
    let lowered := String.mk (str.data.map lowerAsciiChar)
    let uppered := String.mk (str.data.map upperAsciiChar)
    if str ≠ lowered ∧ str ≠ uppered then none
    else
      let s := lowered.data
      match lastIdxOf s '1' with
      | none => none
      | some 0 => none
      | some split =>
        let hrp := String.mk (s.take split)
        let wordChars := s.drop (split + 1)
        if wordChars.length < 6 then none
        else
          match prefixChk hrp with
          | none => none
          | some chk0 =>
            match wordChars.mapM charToWord with
            | none => none
            | some vals =>
              let chk := vals.foldl (fun k v => polymodStep k ^^^ v) chk0
              if chk ≠ 1 then none
              else some (hrp, vals.take (vals.length - 6))

/-- Model of cosmos.canonicalAddress of @certusone/wormhole-sdk:
bech32-decode and regroup the 5-bit words into bytes.  The returned
prefix is ignored, as in the library. -/
def canonicalAddressM (humanAddr : String) : Option (List Nat) :=
  (bech32Decode humanAddr).bind fun pr => fromWords pr.2

/-- Model of cosmos.humanAddress of @certusone/wormhole-sdk:
bech32-encode the bytes regrouped into 5-bit words. -/
def humanAddressM (hrp : String) (canonical : List Nat) : Option String :=
  bech32Encode hrp (toWords canonical)

/- ## ethers utilities -/

/-- ethers zeroPad(value, length): left-pad with zero bytes, failing when the
value is longer than the target length. -/
def zeroPadM (value : List Nat) (len : Nat) : Option (List Nat) :=
  if len < value.length then none
  else some (List.replicate (len - value.length) 0 ++ value)

/-- ethers hexStripZeros: on a 0x-prefixed hex string, strip leading zero
digits but keep at least one digit. -/
def dropLeadingZerosKeepOne : List Char → List Char
  | '0' :: c :: rest => dropLeadingZerosKeepOne (c :: rest)
  | l => l

def isHexDigits (l : List Char) : Bool := l.all (fun c => (hexVal c).isSome)

def hexStripZerosM (s : String) : Option String :=
  if s.data.take 2 = ['0', 'x'] ∧ isHexDigits (s.data.drop 2) then
    some (String.mk ('0' :: 'x' :: dropLeadingZerosKeepOne (s.data.drop 2)))
  else none

/-- ethers arrayify on a hex string: requires 0x prefix, hex digits, and an
even number of digits. -/
def jsArrayify (s : String) : Option (List Nat) :=
  if s.data.take 2 = ['0', 'x'] ∧ isHexDigits (s.data.drop 2) ∧ s.data.length % 2 = 0 then
    some (hexPairsToBytes (s.data.drop 2))
  else none

/- ## keccak-256 (model of ethers keccak256: original Keccak padding, rate
   136 bytes, 256-bit output).  Lanes are 64-bit, kept as Nat reduced mod
   2 to the 64. -/

/-- One step of the degree-8 LFSR generating the Keccak round-constant bits. -/
def keccakLfsrStep (r : Nat) : Nat :=
  let r2 := r <<< 1
  if r2 &&& 0x100 ≠ 0 then (r2 ^^^ 0x171) &&& 0xff else r2 &&& 0xff

def keccakRcBit (t : Nat) : Nat :=
  ((List.range t).foldl (fun r _ => keccakLfsrStep r) 1) &&& 1

/-- The 24 Keccak-f[1600] round constants, generated from the LFSR: bit
2 to the j minus 1 of constant i is rc(7 i + j). -/
def keccakRC : List Nat :=
  (List.range 24).map (fun i =>
    (List.range 7).foldl (fun acc j => acc + keccakRcBit (7 * i + j) * 2 ^ (2 ^ j - 1)) 0)

/-- The rho rotation offsets as (lane index, offset) pairs, generated by the
standard walk: starting from lane (1,0), step t assigns offset
(t+1)(t+2)/2 mod 64 and moves to (y, 2x+3y mod 5).  Lane (0,0) keeps offset 0. -/
def keccakRhoPairs : List (Nat × Nat) :=
  ((List.range 24).foldl
    (fun (acc : List (Nat × Nat) × Nat × Nat) t =>
      let x := acc.2.1
      let y := acc.2.2
      (acc.1 ++ [(x + 5 * y, ((t + 1) * (t + 2) / 2) % 64)], y, (2 * x + 3 * y) % 5))
    ([], 1, 0)).1

def keccakRho : List Nat :=
  (List.range 25).map (fun i =>
    ((keccakRhoPairs.find? (fun p => p.1 = i)).map Prod.snd).getD 0)

def rotl64 (x s : Nat) : Nat :=
  let s := s % 64
  ((x <<< s) ||| (x >>> (64 - s))) % (2 ^ 64)

def keccakRound (A : List Nat) (rc : Nat) : List Nat :=
  let C := (List.range 5).map (fun x =>
    A.getD x 0 ^^^ A.getD (x + 5) 0 ^^^ A.getD (x + 10) 0 ^^^
      A.getD (x + 15) 0 ^^^ A.getD (x + 20) 0)
  let D := (List.range 5).map (fun x =>
    C.getD ((x + 4) % 5) 0 ^^^ rotl64 (C.getD ((x + 1) % 5) 0) 1)
  let A1 := (List.range 25).map (fun i => A.getD i 0 ^^^ D.getD (i % 5) 0)
  let B := (List.range 25).map (fun t =>
    let tx := t % 5
    let ty := t / 5
    let sx := (3 * (ty + 2 * tx)) % 5
    let s := sx + 5 * tx
    rotl64 (A1.getD s 0) (keccakRho.getD s 0))
  let A2 := (List.range 25).map (fun i =>
    let x := i % 5
    let y := i / 5
    B.getD i 0 ^^^ ((0xffffffffffffffff ^^^ B.getD ((x + 1) % 5 + 5 * y) 0) &&&
      B.getD ((x + 2) % 5 + 5 * y) 0))
  (List.range 25).map (fun i => if i = 0 then A2.getD 0 0 ^^^ rc else A2.getD i 0)

def keccakP (A : List Nat) : List Nat := keccakRC.foldl keccakRound A

/-- Little-endian 64-bit lane from up to 8 bytes. -/
def leLane (bytes : List Nat) : Nat := bytes.foldr (fun b acc => b + 256 * acc) 0

def keccakPad (len : Nat) : List Nat :=
  let padLen := 136 - len % 136
  if padLen = 1 then [0x81] else 0x01 :: (List.replicate (padLen - 2) 0 ++ [0x80])

def absorbBlock (st block : List Nat) : List Nat :=
  keccakP ((List.range 25).map (fun i =>
    if i < 17 then st.getD i 0 ^^^ leLane ((block.drop (8 * i)).take 8) else st.getD i 0))

def absorbBlocks (st : List Nat) : Nat → List Nat → List Nat
  | 0, _ => st
  | n + 1, msg => absorbBlocks (absorbBlock st (msg.take 136)) n (msg.drop 136)

def keccak256Bytes (msg : List Nat) : List Nat :=
  let padded := msg ++ keccakPad msg.length
  let st := absorbBlocks (List.replicate 25 0) (padded.length / 136) padded
  (List.range 32).map (fun i => (st.getD (i / 8) 0 >>> (8 * (i % 8))) % 256)

/-- UTF-8 bytes of a string; all inputs used in this development are ASCII,
where code points and UTF-8 bytes coincide. -/
def utf8Bytes (s : String) : List Nat := s.data.map Char.toNat

/-- Keccak-256 test vector: the hash of the empty message, anchoring the
permutation, padding and round-constant generation above. -/
theorem keccak256Bytes_nil_vector :
    String.mk (bytesToHexChars (keccak256Bytes [])) =
      "c5d2460186f7233c927e7db2dcc703c0e500b653ca82273b7bfad8045d85a470" := by
  decide

/-- Keccak-256 test vector: the hash of "abc". -/
theorem keccak256Bytes_abc_vector :
    String.mk (bytesToHexChars (keccak256Bytes (utf8Bytes "abc"))) =
      "4e03657aea45a94fc7d47ba826c8d667c0d1e6e33a64a036ec44f58fa12d6c45" := by
  decide

/- ## Data model of the Cosmos context (src/sdk/src/contexts/cosmos/context.ts) -/

/-- A ChainName | ChainId value: either a symbolic chain name or a numeric
wormhole chain id. -/
inductive ChainRef where
  | name (s : String)
  | id (n : Nat)
  deriving DecidableEq, Repr

/-- Modelled from the spec: the chain identity registry of WormholeContext
(wormhole.ts is not included under src/) — a bidirectional mapping between
numeric ids and symbolic names, built once from static configuration. -/
structure ChainRegistry where
  nameToId : String → Nat
  idToName : Nat → String

/-- Modelled from the spec: WormholeContext.toChainId — a numeric id resolves
to itself, a name through the registry. -/
def toChainId (reg : ChainRegistry) : ChainRef → Nat
  | .id n => n
  | .name s => reg.nameToId s

/-- Modelled from the spec: WormholeContext.toChainName — a name resolves to
itself, a numeric id through the registry. -/
def toChainName (reg : ChainRegistry) : ChainRef → String
  | .name s => s
  | .id n => reg.idToName n

/-- TokenId from types.ts: the home chain and the address in that chain's
native format. -/
structure TokenId where
  chain : ChainRef
  address : String
  deriving DecidableEq, Repr

structure Contracts where
  core : Option String
  token_bridge : Option String
  deriving DecidableEq, Repr

/-- Error kinds thrown by the context, one constructor per spec error kind;
the carried string is the thrown Error's message. -/
inductive Err where
  | notImplemented (msg : String)
  | configurationError (msg : String)
  | notRegistered (msg : String)
  | attestationUnavailable
  | other (msg : String)
  deriving DecidableEq, Repr

def Err.isConfigurationError : Err → Bool
  | .configurationError _ => true
  | _ => false

/-- The lazily created CosmWasmClient, identified by the RPC endpoint it was
connected to. -/
structure Client where
  rpc : String
  deriving DecidableEq, Repr

inductive QueryMsg where
  | wrappedRegistry (chain : Nat) (address : String)
  | isVaaRedeemed (vaa : String)
  | balance (address : String)
  | tokenInfo
  deriving DecidableEq, Repr

/-- Network side effects performed by a context operation, in order. -/
inductive NetOp where
  | connect (rpc : String)
  | query (contract : String) (msg : QueryMsg)
  deriving DecidableEq, Repr

structure LogAttr where
  key : String
  value : String
  deriving DecidableEq, Repr

structure LogEvent where
  attributes : List LogAttr
  deriving DecidableEq, Repr

structure CosmosLog where
  events : List LogEvent
  deriving DecidableEq, Repr

/-- A transaction as returned by client.getTx; rawLog is kept in the parsed
form that cosmjs's parseRawLog produces. -/
structure Tx where
  rawLog : List CosmosLog
  deriving DecidableEq, Repr

/-- parseVaa's result from @certusone/wormhole-sdk. -/
structure ParsedVaa where
  version : Nat
  guardianSetIndex : Nat
  guardianSignatures : List (List Nat)
  timestamp : Nat
  nonce : Nat
  emitterChain : Nat
  emitterAddress : List Nat
  sequence : Nat
  consistencyLevel : Nat
  payload : List Nat
  deriving DecidableEq, Repr

/-- parseTokenTransferPayload's result from @certusone/wormhole-sdk.
toAddress models the library's `to` field (`to` is reserved in Lean). -/
structure TokenTransfer where
  payloadType : Nat
  amount : Nat
  tokenAddress : List Nat
  tokenChain : Nat
  toAddress : List Nat
  toChain : Nat
  fee : Nat
  deriving DecidableEq, Repr

structure VaaInfoM where
  transaction : Tx
  rawVaa : List Nat
  vaa : ParsedVaa
  deriving DecidableEq, Repr

inductive WasmExecMsg where
  | submitVaa (data : String)
  deriving DecidableEq, Repr

structure ExecuteMsgValue where
  sender : String
  contract : String
  msg : WasmExecMsg
  deriving DecidableEq, Repr

structure EncodeObjectM where
  typeUrl : String
  value : ExecuteMsgValue
  deriving DecidableEq, Repr

/-- Model of cosmjs calculateFee: the external helper is opaque here, so the
fee retains its two inputs (the fixed gas estimate and the gas price string). -/
structure StdFeeM where
  gasLimit : Nat
  gasPrice : String
  deriving DecidableEq, Repr

def calculateFeeM (gasLimit : Nat) (gasPrice : String) : StdFeeM :=
  { gasLimit := gasLimit, gasPrice := gasPrice }

structure CosmosTransaction where
  fee : StdFeeM
  msgs : List EncodeObjectM
  memo : String
  deriving DecidableEq, Repr

/-- The environment a CosmosContext runs against: the registry, the static
configuration, and oracles giving the responses of external network calls. -/
structure Env where
  reg : ChainRegistry
  rpcs : String → Option String
  contractsFor : String → Option Contracts
  wormholeHosts : List String
  wrappedQuery : String → Nat → String → Option String
  vaaRedeemedQuery : String → String → Bool
  formatAssetAddressOf : ChainRef → String → Except Err (List Nat)
  getTx : String → Option Tx
  guardianAttempt : Nat → Option (List Nat)

/- ## Static tables (context.ts lines 48-56) -/

def NATIVE_DENOMS (key : String) : Option String :=
  match key with
  | "osmosis" => some "uosmo"
  | "wormchain" => some "uworm"
  | _ => none

def PREFIXES (key : String) : Option String :=
  match key with
  | "osmosis" => some "osmo"
  | "wormchain" => some "wormchain"
  | _ => none

/-- Indexing the PREFIXES record directly with this.chain, a ChainName | ChainId
value, as parseAddress and parseAssetAddress do: a numeric chain id is not a key
of the record, so the lookup misses. -/
def PREFIXES_ref : ChainRef → Option String
  | .name s => PREFIXES s
  | .id _ => none

def MSG_EXECUTE_CONTRACT_TYPE_URL : String := "/cosmwasm.wasm.v1.MsgExecuteContract"

def buildExecuteMsg (sender contract : String) (msg : WasmExecMsg) : EncodeObjectM :=
  { typeUrl := MSG_EXECUTE_CONTRACT_TYPE_URL
    value := { sender := sender, contract := contract, msg := msg } }

/- ## External parsers (wormhole-sdk, not under src/) -/

def bytesToNatBE (bs : List Nat) : Nat := bs.foldl (fun a b => a * 256 + b) 0

/-- Modelled from the spec: parseVaa of @certusone/wormhole-sdk (the library is
not part of src/).  Header: version (1 byte), guardian set index (4), signature
count (1), then 66-byte guardian signatures; body: timestamp (4), nonce (4),
emitter chain id (2), emitter address (32), sequence (8), consistency level (1),
and the opaque payload (the rest). -/
def parseVaaM (bytes : List Nat) : Except Err ParsedVaa :=
  if bytes.length < 6 then .error (.other "vaa too short")
  else
    let numSigners := bytes.getD 5 0
    let bodyStart := 6 + 66 * numSigners
    if bytes.length < bodyStart + 51 then .error (.other "vaa too short")
    else
      let body := bytes.drop bodyStart
      .ok {
        version := bytes.getD 0 0
        guardianSetIndex := bytesToNatBE ((bytes.drop 1).take 4)
        guardianSignatures := (List.range numSigners).map
          (fun i => (bytes.drop (6 + 66 * i)).take 66)
        timestamp := bytesToNatBE (body.take 4)
        nonce := bytesToNatBE ((body.drop 4).take 4)
        emitterChain := bytesToNatBE ((body.drop 8).take 2)
        emitterAddress := (body.drop 10).take 32
        sequence := bytesToNatBE ((body.drop 42).take 8)
        consistencyLevel := body.getD 50 0
        payload := body.drop 51 }

/-- Modelled from the spec: parseTokenTransferPayload of
@certusone/wormhole-sdk (not part of src/).  Payload type discriminant (1
byte, 1 = transfer, 3 = transfer with payload), amount (32), token address
(32), token chain (2), recipient universal address (32), recipient chain (2),
fee (32). -/
def parseTokenTransferPayloadM (p : List Nat) : Except Err TokenTransfer :=
  if p.getD 0 0 ≠ 1 ∧ p.getD 0 0 ≠ 3 then .error (.other "not a token transfer payload")
  else if p.length < 133 then .error (.other "transfer payload too short")
  else .ok {
    payloadType := p.getD 0 0
    amount := bytesToNatBE ((p.drop 1).take 32)
    tokenAddress := (p.drop 33).take 32
    tokenChain := bytesToNatBE ((p.drop 65).take 2)
    toAddress := (p.drop 67).take 32
    toChain := bytesToNatBE ((p.drop 99).take 2)
    fee := bytesToNatBE ((p.drop 101).take 32) }

/-- Modelled from the spec: the retry loop of getSignedVAAWithRetry
(@certusone/wormhole-sdk, not part of src/) — query the guardian network,
retrying up to the fixed budget; once the budget is exhausted fail with
AttestationUnavailable.  `made` counts attempts already performed; the result
carries the total attempt count. -/
def guardianFetchGo (attempt : Nat → Option (List Nat)) :
    Nat → Nat → Except Err (List Nat) × Nat
  | 0, made => (.error .attestationUnavailable, made)
  | fuel + 1, made =>
    match attempt made with
    | some b => (.ok b, made + 1)
    | none => guardianFetchGo attempt fuel (made + 1)

def getSignedVAAWithRetryM (attempt : Nat → Option (List Nat)) (budget : Nat) :
    Except Err (List Nat) × Nat :=
  guardianFetchGo attempt budget 0

/- ## CosmosContext operations (context.ts) -/

/-- Modelled from the spec: CosmosContracts.mustGetContracts (contracts.ts is
not under src/) — look up the chain's configured contract addresses, failing
with a configuration error when the chain has none. -/
def mustGetContractsM (env : Env) (chain : ChainRef) : Except Err Contracts :=
  match env.contractsFor (toChainName env.reg chain) with
  | none => .error (.configurationError "contracts not found")
  | some cs => .ok cs

/-- getCosmWasmClient (context.ts lines 377-387): return the cached client if
one exists, otherwise resolve the chain's RPC endpoint and connect.  The state
is the private wasmClient field; the op list records the connection made. -/
def getCosmWasmClient (env : Env) (chain : ChainRef) (st : Option Client) :
    Except Err Client × Option Client × List NetOp :=
  match st with
  | some c => (.ok c, some c, [])
  | none =>
    match env.rpcs (toChainName env.reg chain) with
    | none => (.error (.configurationError "RPC not configured"), none, [])
    | some rpc => (.ok { rpc := rpc }, some { rpc := rpc }, [.connect rpc])

/-- send (context.ts lines 91-101): not implemented for the Cosmos context. -/
def cosmosSend (env : Env) (token : Option TokenId) (amount : String)
    (sendingChain : ChainRef) (senderAddress : String)
    (recipientChain : ChainRef) (recipientAddress : String)
    (relayerFee : Option Nat) : Except Err CosmosTransaction :=
  .error (.notImplemented "Method not implemented.")

/-- sendWithPayload (context.ts lines 103-113): not implemented for the Cosmos
context. -/
def cosmosSendWithPayload (env : Env) (token : Option TokenId) (amount : String)
    (sendingChain : ChainRef) (senderAddress : String)
    (recipientChain : ChainRef) (recipientAddress : String)
    (payload : List Nat) : Except Err CosmosTransaction :=
  .error (.notImplemented "Method not implemented.")

/-- formatAddress (context.ts lines 115-117):
arrayify(zeroPad(cosmos.canonicalAddress(address), 32)). -/
def cosmosFormatAddress (address : String) : Except Err (List Nat) :=
  match canonicalAddressM address with
  | none => .error (.other "invalid bech32 address")
  | some canonical =>
    match zeroPadM canonical 32 with
    | none => .error (.other "value out of range")
    | some padded => .ok padded

/-- The `address: any` argument of parseAddress / parseAssetAddress, in the two
forms the surrounding code produces: a byte array (Uint8Array / Buffer), or a
0x-prefixed hex string. -/
inductive AddrInput where
  | bytes (b : List Nat)
  | hex (s : String)
  deriving DecidableEq, Repr

/-- parseAddress (context.ts lines 119-128): look the bech32 prefix up with
this.chain as the key, strip zeros off a 0x-hex input (a byte input is passed
through unchanged, padding included), and bech32-encode. -/
def cosmosParseAddress (thisChain : ChainRef) (address : AddrInput) : Except Err String :=
  match PREFIXES_ref thisChain with
  | none => .error (.configurationError "Prefix not found for chain")
  | some hrp =>
    let addrBytes : Except Err (List Nat) :=
      match address with
      | .bytes b => .ok b
      | .hex s =>
        match hexStripZerosM s with
        | none => .error (.other "invalid hex string")
        | some stripped => .ok (hexPairsToBytes (stripped.data.drop 2))
    match addrBytes with
    | .error e => .error e
    | .ok b =>
      match humanAddressM hrp b with
      | none => .error (.other "bech32 encode failed")
      | some s => .ok s

/-- parseAssetAddress (context.ts lines 142-151): textually the same body as
parseAddress. -/
def cosmosParseAssetAddress (thisChain : ChainRef) (address : AddrInput) : Except Err String :=
  match PREFIXES_ref thisChain with
  | none => .error (.configurationError "Prefix not found for chain")
  | some hrp =>
    let addrBytes : Except Err (List Nat) :=
      match address with
      | .bytes b => .ok b
      | .hex s =>
        match hexStripZerosM s with
        | none => .error (.other "invalid hex string")
        | some stripped => .ok (hexPairsToBytes (stripped.data.drop 2))
    match addrBytes with
    | .error e => .error e
    | .ok b =>
      match humanAddressM hrp b with
      | none => .error (.other "bech32 encode failed")
      | some s => .ok s

/-- buildTokenId (context.ts lines 134-140): one discriminator hex byte from a
NATIVE_DENOMS key lookup, then keccak256(address).substring(4) — the 0x prefix
and the first hex byte of the hash are dropped.  JavaScript's substring is
modelled as List.drop on the character list. -/
def buildTokenId (address : String) : String :=
  let isNative := (NATIVE_DENOMS address).isSome
  String.mk ((if isNative then ['0', '1'] else ['0', '0']) ++
    ('0' :: 'x' :: bytesToHexChars (keccak256Bytes (utf8Bytes address))).drop 4)

/-- formatAssetAddress (context.ts lines 130-132): Buffer.from(buildTokenId, hex). -/
def cosmosFormatAssetAddress (address : String) : List Nat :=
  hexPairsToBytes (buildTokenId address).data

/-- getForeignAsset (context.ts lines 153-183).  The second result component is
the wasmClient state after the call, the third the network operations issued. -/
def getForeignAsset (env : Env) (st : Option Client) (tokenId : TokenId) (chain : ChainRef) :
    Except Err (Option String) × Option Client × List NetOp :=
  let toChainIdv := toChainId env.reg chain
  let chainIdv := toChainId env.reg tokenId.chain
  if toChainIdv = chainIdv then (.ok (some tokenId.address), st, [])
  else
    match getCosmWasmClient env chain st with
    | (.error e, st', ops) => (.error e, st', ops)
    | (.ok _, st', ops) =>
      match mustGetContractsM env chain with
      | .error e => (.error e, st', ops)
      | .ok cs =>
        match cs.token_bridge with
        | none => (.error (.other "Token bridge contract not found"), st', ops)
        | some tokenBridgeAddress =>
          match env.formatAssetAddressOf tokenId.chain tokenId.address with
          | .error e => (.error e, st', ops)
          | .ok tokenAddr =>
            let base64Addr := base64Encode tokenAddr
            let ops2 := ops ++ [.query tokenBridgeAddress (.wrappedRegistry chainIdv base64Addr)]
            match env.wrappedQuery tokenBridgeAddress chainIdv base64Addr with
            | some address => (.ok (some address), st', ops2)
            | none => (.ok none, st', ops2)

/-- JavaScript falsiness of a string | null value: null and the empty string
are falsy. -/
def jsFalsyOptStr : Option String → Bool
  | none => true
  | some s => s = ""

/-- mustGetForeignAsset (context.ts lines 185-192): `if (!assetAdddress) throw`. -/
def mustGetForeignAsset (env : Env) (st : Option Client) (tokenId : TokenId) (chain : ChainRef) :
    Except Err String × Option Client × List NetOp :=
  match getForeignAsset env st tokenId chain with
  | (.error e, st', ops) => (.error e, st', ops)
  | (.ok assetAddress, st', ops) =>
    if jsFalsyOptStr assetAddress then
      (.error (.notRegistered "token not registered"), st', ops)
    else (.ok (assetAddress.getD ""), st', ops)

/-- getNativeDenom (context.ts lines 227-233). -/
def getNativeDenom (env : Env) (chain : ChainRef) : Except Err String :=
  match NATIVE_DENOMS (toChainName env.reg chain) with
  | none => .error (.configurationError "Native denomination not found for chain")
  | some d => .ok d

/-- getPrefix (context.ts lines 235-240). -/
def getPrefixOf (env : Env) (chain : ChainRef) : Except Err String :=
  match PREFIXES (toChainName env.reg chain) with
  | none => .error (.configurationError "Prefix not found for chain")
  | some p => .ok p

/-- getTokenBridgeAddress (context.ts lines 389-395). -/
def getTokenBridgeAddress (env : Env) (chain : String) : Except Err String :=
  match mustGetContractsM env (.name chain) with
  | .error e => .error e
  | .ok cs =>
    match cs.token_bridge with
    | none => .error (.other "No token bridge found for chain")
    | some tb => .ok tb

/-- JavaScript `a || b` for an optional string a. -/
def jsOrStr (a : Option String) (b : String) : String :=
  match a with
  | some s => if s = "" then b else s
  | none => b

/-- redeem (context.ts lines 242-277): parse the VAA and its transfer payload,
derive the recipient from the last 20 of the 32 recipient-address bytes
(transfer.to.slice(12)), and build the submit_vaa contract execution whose
sender (the fee payer) is payerAddr || recipient. -/
def cosmosRedeem (env : Env) (destChain : ChainRef) (signedVAA : List Nat)
    (payerAddr : Option String) : Except Err CosmosTransaction :=
  let chainName := toChainName env.reg destChain
  match parseVaaM signedVAA with
  | .error e => .error e
  | .ok vaa =>
    match parseTokenTransferPayloadM vaa.payload with
    | .error e => .error e
    | .ok transfer =>
      match getNativeDenom env (.name chainName) with
      | .error e => .error e
      | .ok denom =>
        match getPrefixOf env (.name chainName) with
        | .error e => .error e
        | .ok hrp =>
          match humanAddressM hrp (transfer.toAddress.drop 12) with
          | none => .error (.other "bech32 encode failed")
          | some recipient =>
            match getTokenBridgeAddress env chainName with
            | .error e => .error e
            | .ok tb =>
              let msgs := [buildExecuteMsg (jsOrStr payerAddr recipient) tb
                (.submitVaa (base64Encode signedVAA))]
              let fee := calculateFeeM 1000000 ("0.1" ++ denom)
              .ok { msgs := msgs, fee := fee, memo := "Wormhole - Complete Transfer" }

/-- isTransferCompleted (context.ts lines 279-293): the token-bridge contract
address is resolved from this.chain, while the client is created for destChain. -/
def isTransferCompleted (env : Env) (thisChain : ChainRef) (st : Option Client)
    (destChain : ChainRef) (signedVaa : String) :
    Except Err Bool × Option Client × List NetOp :=
  match mustGetContractsM env thisChain with
  | .error e => (.error e, st, [])
  | .ok cs =>
    match cs.token_bridge with
    | none => (.error (.other "Token bridge contract not found"), st, [])
    | some tokenBridgeAddress =>
      match getCosmWasmClient env destChain st with
      | (.error e, st', ops) => (.error e, st', ops)
      | (.ok _, st', ops) =>
        match jsArrayify signedVaa with
        | none => (.error (.other "invalid arrayify value"), st', ops)
        | some bytes =>
          let b64 := base64Encode bytes
          (.ok (env.vaaRedeemedQuery tokenBridgeAddress b64), st',
            ops ++ [.query tokenBridgeAddress (.isVaaRedeemed b64)])

/-- searchLogs' innermost attribute loop (context.ts lines 312-326). -/
def searchAttributes (key : String) : List LogAttr → Option String
  | [] => none
  | a :: rest => if a.key = key then some a.value else searchAttributes key rest

def searchEvents (key : String) : List LogEvent → Option String
  | [] => none
  | e :: rest =>
    match searchAttributes key e.attributes with
    | some v => some v
    | none => searchEvents key rest

/-- searchLogs (context.ts lines 312-326): the first attribute value matching
the key, scanning logs, events and attributes in order. -/
def searchLogs (key : String) : List CosmosLog → Option String
  | [] => none
  | l :: rest =>
    match searchEvents key l.events with
    | some v => some v
    | none => searchLogs key rest

/-- getVaa (context.ts lines 328-360): fetch the transaction, recover sequence
and emitter from its logs, call the guardian fetcher with the fixed budget 3,
and return the raw bytes together with the parsed VAA.  The last component is
the number of guardian attempts performed. -/
def cosmosGetVaa (env : Env) (st : Option Client) (txId : String) (chain : ChainRef) :
    Except Err VaaInfoM × Option Client × List NetOp × Nat :=
  match getCosmWasmClient env chain st with
  | (.error e, st', ops) => (.error e, st', ops, 0)
  | (.ok _, st', ops) =>
    match env.getTx txId with
    | none => (.error (.other "tx not found"), st', ops, 0)
    | some tx =>
      match searchLogs "message.sequence" tx.rawLog with
      | none => (.error (.other "sequence not found"), st', ops, 0)
      | some _ =>
        match searchLogs "message.sender" tx.rawLog with
        | none => (.error (.other "emitter not found"), st', ops, 0)
        | some _ =>
          match getSignedVAAWithRetryM env.guardianAttempt 3 with
          | (.error e, made) => (.error e, st', ops, made)
          | (.ok vaaBytes, made) =>
            match parseVaaM vaaBytes with
            | .error e => (.error e, st', ops, made)
            | .ok v =>
              (.ok { transaction := tx, rawVaa := vaaBytes, vaa := v }, st', ops, made)

/- ## Helper lemmas -/

theorem toChainName_name (reg : ChainRegistry) (s : String) :
    toChainName reg (.name s) = s := rfl

theorem keccak256Bytes_length (m : List Nat) : (keccak256Bytes m).length = 32 := by
  simp [keccak256Bytes]

theorem keccak256Bytes_lt (m : List Nat) : ∀ b ∈ keccak256Bytes m, b < 256 := by
  intro b hb
  simp only [keccak256Bytes, List.mem_map] at hb
  obtain ⟨i, _, hi⟩ := hb
  omega

/-- formatAssetAddress, at byte level: the discriminator byte followed by the
last 31 bytes of the keccak-256 hash (its first byte is dropped by
substring(4)). -/
theorem cosmosFormatAssetAddress_eq (a : String) :
    cosmosFormatAssetAddress a =
      (if (NATIVE_DENOMS a).isSome then 1 else 0) ::
        (keccak256Bytes (utf8Bytes a)).drop 1 := by
  have hlen := keccak256Bytes_length (utf8Bytes a)
  rcases hk : keccak256Bytes (utf8Bytes a) with _ | ⟨h0, t⟩
  · rw [hk] at hlen; simp at hlen
  · have hbound : ∀ b ∈ t, b < 256 := by
      intro b hb
      exact keccak256Bytes_lt (utf8Bytes a) b (by rw [hk]; exact List.mem_cons_of_mem _ hb)
    have hrt := hexPairsToBytes_bytesToHexChars t hbound
    have h0v : hexVal '0' = some 0 := by decide
    have h1v : hexVal '1' = some 1 := by decide
    unfold cosmosFormatAssetAddress buildTokenId
    rw [hk]
    by_cases hn : (NATIVE_DENOMS a).isSome <;>
      simp [hn, bytesToHexChars, hexPairsToBytes, h0v, h1v, hrt]

theorem guardianFetchGo_count_le (attempt : Nat → Option (List Nat)) (fuel made : Nat) :
    (guardianFetchGo attempt fuel made).2 ≤ made + fuel := by
  induction fuel generalizing made with
  | zero => simp [guardianFetchGo]
  | succ n ih =>
    unfold guardianFetchGo
    split
    · omega
    · have := ih (made + 1)
      omega

theorem guardianFetchGo_all_fail (attempt : Nat → Option (List Nat))
    (h : ∀ i, attempt i = none) (fuel made : Nat) :
    guardianFetchGo attempt fuel made = (.error .attestationUnavailable, made + fuel) := by
  induction fuel generalizing made with
  | zero => simp [guardianFetchGo]
  | succ n ih =>
    unfold guardianFetchGo
    rw [h made]
    dsimp only
    rw [ih (made + 1)]
    congr 1
    omega

theorem parseTokenTransferPayloadM_toAddress_length (p : List Nat) (tr : TokenTransfer)
    (h : parseTokenTransferPayloadM p = .ok tr) : tr.toAddress.length = 32 := by
  unfold parseTokenTransferPayloadM at h
  split at h
  · exact absurd h (by simp)
  · split at h
    · exact absurd h (by simp)
    · injection h with h
      subst h
      simp
      omega

/- ## Example data used by the concrete witnesses and counterexamples -/

def bytes20Ex : List Nat := (List.range 20).map (fun i => 101 + i)

/-- A valid 20-byte osmosis bech32 address (checksum computed by the encoder
model itself). -/
def addr20Ex : String := (humanAddressM "osmo" bytes20Ex).getD ""

def regEx : ChainRegistry where
  nameToId := fun s =>
    if s = "osmosis" then 20 else if s = "wormchain" then 3104
    else if s = "cosmoshub" then 4000 else 0
  idToName := fun n =>
    if n = 20 then "osmosis" else if n = 3104 then "wormchain"
    else if n = 4000 then "cosmoshub" else "unknown"

def txEx : Tx :=
  { rawLog := [{ events := [{ attributes :=
      [{ key := "message.sequence", value := "5" },
       { key := "message.sender", value := "emitterAddressHex" }] }] }] }

def contractsEx : Contracts :=
  { core := some "osmo1core", token_bridge := some "osmo1bridge" }

def envEx : Env where
  reg := regEx
  rpcs := fun s =>
    if s = "osmosis" then some "http://osmosis.rpc"
    else if s = "wormchain" then some "http://wormchain.rpc" else none
  contractsFor := fun s => if s = "osmosis" then some contractsEx else none
  wormholeHosts := ["http://guardian.host"]
  wrappedQuery := fun _ _ _ => none
  vaaRedeemedQuery := fun _ _ => true
  formatAssetAddressOf := fun _ a => .ok (utf8Bytes a)
  getTx := fun _ => some txEx
  guardianAttempt := fun _ => none

/-- envEx, but the wrapped-registry query answers with the empty string. -/
def envEmptyResp : Env := { envEx with wrappedQuery := fun _ _ _ => some "" }

/-- envEx with all required chain configuration absent. -/
def envNoConfig : Env :=
  { envEx with rpcs := fun _ => none, contractsFor := fun _ => none }

def tokEx : TokenId := { chain := .name "cosmoshub", address := "uatom" }

/-- A concrete token-transfer payload: type 1, zero amount and fee, token
address of 7s on chain 3, recipient bytes20Ex zero-padded to 32 bytes, to
chain 20. -/
def transferPayloadEx : List Nat :=
  [1] ++ List.replicate 32 0 ++ List.replicate 32 7 ++ [0, 3]
    ++ (List.replicate 12 0 ++ bytes20Ex) ++ [0, 20] ++ List.replicate 32 0

/-- A concrete signed VAA with no guardian signatures carrying
transferPayloadEx. -/
def vaaBytesEx : List Nat :=
  [1, 0, 0, 0, 0, 0]
    ++ (List.replicate 4 0 ++ List.replicate 4 0 ++ [0, 3] ++ List.replicate 32 9
        ++ List.replicate 8 0 ++ [1])
    ++ transferPayloadEx

def vaaEx : ParsedVaa :=
  { version := 1, guardianSetIndex := 0, guardianSignatures := [], timestamp := 0
    nonce := 0, emitterChain := 3, emitterAddress := List.replicate 32 9
    sequence := 0, consistencyLevel := 1, payload := transferPayloadEx }

def transferEx : TokenTransfer :=
  { payloadType := 1, amount := 0, tokenAddress := List.replicate 32 7, tokenChain := 3
    toAddress := List.replicate 12 0 ++ bytes20Ex, toChain := 20, fee := 0 }

/- ## Claims -/

/-- C1 counterexample: the valid 20-byte osmosis address addr20Ex comes back
from parseAddress ∘ formatAddress as the bech32 encoding of the full zero-padded
32-byte buffer, not as the original address. -/
theorem claim1_roundTrip_counterexample :
    canonicalAddressM addr20Ex = some bytes20Ex
    ∧ (cosmosFormatAddress addr20Ex).bind
        (fun b => cosmosParseAddress (.name "osmosis") (.bytes b)) ≠ .ok addr20Ex := by
  decide

/-- C1 (amended): parseAddress applied to the 32-byte universal buffer produced
by formatAddress re-encodes the buffer padding included, returning the bech32
encoding of the zero-padded 32-byte value; the padded byte list differs from the
canonical address whenever the latter is shorter than 32 bytes, so the original
address is not recovered. -/
theorem claim1_roundTrip_amended (a : String) (chain : ChainRef) (hrp : String) (d : List Nat)
    (hvalid : canonicalAddressM a = some d)
    (hlen : d.length ≤ 32)
    (hhrp : PREFIXES_ref chain = some hrp) :
    (cosmosFormatAddress a).bind (fun b => cosmosParseAddress chain (.bytes b)) =
      (match humanAddressM hrp (List.replicate (32 - d.length) 0 ++ d) with
        | some s => .ok s
        | none => .error (.other "bech32 encode failed"))
    ∧ (d.length < 32 → List.replicate (32 - d.length) 0 ++ d ≠ d) := by
  constructor
  · simp [cosmosFormatAddress, hvalid, zeroPadM, show ¬(32 < d.length) from by omega,
      cosmosParseAddress, hhrp, Except.bind]
    cases humanAddressM hrp (List.replicate (32 - d.length) 0 ++ d) <;> rfl
  · intro hlt heq
    have := congrArg List.length heq
    simp at this
    omega

/-- C1 witness: the amended statement instantiated at the concrete valid
address addr20Ex on the osmosis chain. -/
theorem claim1_roundTrip_witness :
    (cosmosFormatAddress addr20Ex).bind
        (fun b => cosmosParseAddress (.name "osmosis") (.bytes b)) =
      (match humanAddressM "osmo" (List.replicate (32 - bytes20Ex.length) 0 ++ bytes20Ex) with
        | some s => .ok s
        | none => .error (.other "bech32 encode failed"))
    ∧ (bytes20Ex.length < 32 → List.replicate (32 - bytes20Ex.length) 0 ++ bytes20Ex ≠ bytes20Ex) :=
  claim1_roundTrip_amended addr20Ex (.name "osmosis") "osmo" bytes20Ex
    (by decide) (by decide) (by decide)

/-- C2: when the queried chain resolves to the same chain id as the token's
home chain, getForeignAsset returns the token's own address, leaves the client
state untouched, and performs no network operation. -/
theorem claim2_sameChain_shortCircuit (env : Env) (st : Option Client) (tokenId : TokenId)
    (chain : ChainRef)
    (h : toChainId env.reg chain = toChainId env.reg tokenId.chain) :
    getForeignAsset env st tokenId chain = (.ok (some tokenId.address), st, []) := by
  simp [getForeignAsset, h]

/-- C2 witness: the short circuit at a concrete environment and token. -/
theorem claim2_sameChain_witness :
    getForeignAsset envEx none { chain := .name "osmosis", address := "uosmo" } (.name "osmosis") =
      (.ok (some "uosmo"), none, []) :=
  claim2_sameChain_shortCircuit envEx none _ _ rfl

/-- C4 counterexample: the canonical asset id of "osmosis" is not the
discriminator byte followed by the keccak-256 hash truncated to its first 31
bytes — the code drops the hash's first byte instead. -/
theorem claim4_assetId_counterexample :
    cosmosFormatAssetAddress "osmosis" ≠
      (if (NATIVE_DENOMS "osmosis").isSome then 1 else 0) ::
        (keccak256Bytes (utf8Bytes "osmosis")).take 31 := by
  decide

/-- C4 (amended): the canonical asset id is one discriminator byte (native vs
contract-backed, decided by a NATIVE_DENOMS key lookup) followed by the LAST 31
bytes of the keccak-256 hash of the address string (the hash's first byte is
dropped); the id is 32 bytes, deterministic, and distinct inputs whose
discriminators or retained 31-byte hash segments differ yield distinct ids. -/
theorem claim4_assetId_amended (a b : String)
    (h : (NATIVE_DENOMS a).isSome ≠ (NATIVE_DENOMS b).isSome
       ∨ (keccak256Bytes (utf8Bytes a)).drop 1 ≠ (keccak256Bytes (utf8Bytes b)).drop 1) :
    cosmosFormatAssetAddress a =
        (if (NATIVE_DENOMS a).isSome then 1 else 0) :: (keccak256Bytes (utf8Bytes a)).drop 1
    ∧ (cosmosFormatAssetAddress a).length = 32
    ∧ cosmosFormatAssetAddress a ≠ cosmosFormatAssetAddress b := by
  refine ⟨cosmosFormatAssetAddress_eq a, ?_, ?_⟩
  · rw [cosmosFormatAssetAddress_eq]
    have := keccak256Bytes_length (utf8Bytes a)
    simp
    omega
  · rw [cosmosFormatAssetAddress_eq a, cosmosFormatAssetAddress_eq b]
    intro he
    injection he with h1 h2
    rcases h with h | h
    · cases hx : (NATIVE_DENOMS a).isSome <;> cases hy : (NATIVE_DENOMS b).isSome <;>
        simp_all
    · exact h h2

/-- C4 witness: the amended statement at the concrete native units uosmo and
uatom, whose retained hash segments differ. -/
theorem claim4_assetId_witness :
    cosmosFormatAssetAddress "uosmo" =
        (if (NATIVE_DENOMS "uosmo").isSome then 1 else 0) ::
          (keccak256Bytes (utf8Bytes "uosmo")).drop 1
    ∧ (cosmosFormatAssetAddress "uosmo").length = 32
    ∧ cosmosFormatAssetAddress "uosmo" ≠ cosmosFormatAssetAddress "uatom" :=
  claim4_assetId_amended "uosmo" "uatom" (Or.inr (by decide))

/-- C7 counterexample: with all required chain configuration absent, send fails
with NotImplemented ("Method not implemented."), which is not a
ConfigurationError. -/
theorem claim7_send_counterexample :
    cosmosSend envNoConfig none "1000000" (.name "osmosis") "osmo1sender"
        (.name "wormchain") "wormchain1recipient" none =
      .error (.notImplemented "Method not implemented.")
    ∧ Err.isConfigurationError (Err.notImplemented "Method not implemented.") = false
    ∧ envNoConfig.rpcs (toChainName envNoConfig.reg (.name "osmosis")) = none
    ∧ envNoConfig.contractsFor (toChainName envNoConfig.reg (.name "osmosis")) = none :=
  ⟨rfl, rfl, rfl, rfl⟩

/-- C7 (amended): send on the Cosmos context is unimplemented — every call
fails with NotImplemented ("Method not implemented.") regardless of
configuration, so no default is ever substituted for missing configuration. -/
theorem claim7_send_amended (env : Env) (token : Option TokenId) (amount : String)
    (sendingChain : ChainRef) (senderAddress : String) (recipientChain : ChainRef)
    (recipientAddress : String) (relayerFee : Option Nat) :
    cosmosSend env token amount sendingChain senderAddress recipientChain
        recipientAddress relayerFee =
      .error (.notImplemented "Method not implemented.") := rfl

/-- C10: parseAssetAddress and parseAddress agree on every input, and both
fail with the prefix-lookup configuration error for any chain whose bech32
prefix is not in the static PREFIXES table. -/
theorem claim10_parseAssetAddress_eq_parseAddress (chain : ChainRef) (address : AddrInput) :
    cosmosParseAssetAddress chain address = cosmosParseAddress chain address
    ∧ (PREFIXES_ref chain = none →
        cosmosParseAssetAddress chain address =
          .error (.configurationError "Prefix not found for chain")) := by
  refine ⟨rfl, ?_⟩
  intro h
  simp [cosmosParseAssetAddress, h]

/-- C3: getVaa performs at most 3 guardian attempts; when every attempt fails
it fails with AttestationUnavailable after exactly 3 attempts; and on success
the returned record carries the raw attestation bytes together with their
decoded structure. -/
theorem claim3_attestationRetry (env : Env) (c : Client) (txId : String) (chain : ChainRef)
    (tx : Tx) (sv em : String)
    (htx : env.getTx txId = some tx)
    (hseq : searchLogs "message.sequence" tx.rawLog = some sv)
    (hem : searchLogs "message.sender" tx.rawLog = some em) :
    (cosmosGetVaa env (some c) txId chain).2.2.2 ≤ 3
    ∧ ((∀ i, env.guardianAttempt i = none) →
        (cosmosGetVaa env (some c) txId chain).1 = .error .attestationUnavailable
        ∧ (cosmosGetVaa env (some c) txId chain).2.2.2 = 3)
    ∧ (∀ info, (cosmosGetVaa env (some c) txId chain).1 = .ok info →
        parseVaaM info.rawVaa = .ok info.vaa) := by
  rcases hg : getSignedVAAWithRetryM env.guardianAttempt 3 with ⟨res, made⟩
  have hle : made ≤ 3 := by
    have hc := guardianFetchGo_count_le env.guardianAttempt 3 0
    rw [getSignedVAAWithRetryM] at hg
    rw [hg] at hc
    simpa using hc
  have hfail : (∀ i, env.guardianAttempt i = none) →
      res = .error .attestationUnavailable ∧ made = 3 := by
    intro hall
    have : getSignedVAAWithRetryM env.guardianAttempt 3 =
        (.error .attestationUnavailable, 0 + 3) := by
      rw [getSignedVAAWithRetryM, guardianFetchGo_all_fail env.guardianAttempt hall 3 0]
    rw [hg] at this
    simp at this
    exact ⟨this.1, this.2⟩
  rcases res with e | vaaBytes
  · have hv : cosmosGetVaa env (some c) txId chain = (.error e, some c, [], made) := by
      simp [cosmosGetVaa, getCosmWasmClient, htx, hseq, hem, hg]
    refine ⟨by rw [hv]; exact hle, fun hall => ?_, fun info hi => ?_⟩
    · obtain ⟨he, hm⟩ := hfail hall
      injection he with he
      subst he
      subst hm
      rw [hv]
      exact ⟨rfl, rfl⟩
    · rw [hv] at hi
      exact absurd hi (by simp)
  · rcases hp : parseVaaM vaaBytes with e | v
    · have hv : cosmosGetVaa env (some c) txId chain = (.error e, some c, [], made) := by
        simp [cosmosGetVaa, getCosmWasmClient, htx, hseq, hem, hg, hp]
      refine ⟨by rw [hv]; exact hle, fun hall => ?_, fun info hi => ?_⟩
      · exact absurd (hfail hall).1 (by simp)
      · rw [hv] at hi
        exact absurd hi (by simp)
    · have hv : cosmosGetVaa env (some c) txId chain =
          (.ok { transaction := tx, rawVaa := vaaBytes, vaa := v }, some c, [], made) := by
        simp [cosmosGetVaa, getCosmWasmClient, htx, hseq, hem, hg, hp]
      refine ⟨by rw [hv]; exact hle, fun hall => ?_, fun info hi => ?_⟩
      · exact absurd (hfail hall).1 (by simp)
      · rw [hv] at hi
        injection hi with hi
        subst hi
        simpa using hp

/-- C3 witness: in an environment whose guardian endpoint always fails, the
fetch stops with AttestationUnavailable after exactly 3 attempts. -/
theorem claim3_attestationRetry_witness :
    (cosmosGetVaa envEx (some { rpc := "http://osmosis.rpc" }) "txhash1" (.name "osmosis")).1 =
        .error .attestationUnavailable
    ∧ (cosmosGetVaa envEx (some { rpc := "http://osmosis.rpc" }) "txhash1"
        (.name "osmosis")).2.2.2 = 3 :=
  (claim3_attestationRetry envEx { rpc := "http://osmosis.rpc" } "txhash1" (.name "osmosis")
      txEx "5" "emitterAddressHex" rfl rfl rfl).2.1 (fun _ => rfl)

/-- C5: redeem derives the chain-native recipient by bech32-encoding the last
20 bytes of the 32-byte universal recipient address carried in the transfer
payload, and the sender (the fee payer) of the submit_vaa execute message is
payerAddr || recipient, so it defaults to that recipient when payerAddr is
unspecified. -/
theorem claim5_redeemRecipient (env : Env) (destChain : ChainRef) (bytes : List Nat)
    (payerAddr : Option String) (vaa : ParsedVaa) (transfer : TokenTransfer)
    (denom hrp tb recipient : String)
    (h1 : parseVaaM bytes = .ok vaa)
    (h2 : parseTokenTransferPayloadM vaa.payload = .ok transfer)
    (hd : NATIVE_DENOMS (toChainName env.reg destChain) = some denom)
    (hp : PREFIXES (toChainName env.reg destChain) = some hrp)
    (htb : getTokenBridgeAddress env (toChainName env.reg destChain) = .ok tb)
    (hr : humanAddressM hrp
        (transfer.toAddress.drop (transfer.toAddress.length - 20)) = some recipient) :
    (cosmosRedeem env destChain bytes payerAddr).map
        (fun tx => tx.msgs.map (fun m => m.value.sender)) =
      .ok [jsOrStr payerAddr recipient]
    ∧ (cosmosRedeem env destChain bytes none).map
        (fun tx => tx.msgs.map (fun m => m.value.sender)) =
      .ok [recipient] := by
  have hlen := parseTokenTransferPayloadM_toAddress_length vaa.payload transfer h2
  rw [show transfer.toAddress.length - 20 = 12 from by omega] at hr
  have hred : ∀ pa, cosmosRedeem env destChain bytes pa = .ok {
      msgs := [buildExecuteMsg (jsOrStr pa recipient) tb (.submitVaa (base64Encode bytes))]
      fee := calculateFeeM 1000000 ("0.1" ++ denom)
      memo := "Wormhole - Complete Transfer" } := by
    intro pa
    simp [cosmosRedeem, h1, h2, getNativeDenom, getPrefixOf, toChainName_name, hd, hp, htb, hr]
  refine ⟨?_, ?_⟩ <;> simp [hred, Except.map, jsOrStr, buildExecuteMsg]

/-- C5 witness: a concrete attestation whose transfer payload carries the
20-byte recipient bytes20Ex zero-padded to 32 bytes; the redeem message's
sender is the payer when given and the bech32 recipient addr20Ex otherwise. -/
theorem claim5_redeemRecipient_witness :
    (cosmosRedeem envEx (.name "osmosis") vaaBytesEx (some "osmo1payer")).map
        (fun tx => tx.msgs.map (fun m => m.value.sender)) =
      .ok [jsOrStr (some "osmo1payer") addr20Ex]
    ∧ (cosmosRedeem envEx (.name "osmosis") vaaBytesEx none).map
        (fun tx => tx.msgs.map (fun m => m.value.sender)) =
      .ok [addr20Ex] :=
  claim5_redeemRecipient envEx (.name "osmosis") vaaBytesEx (some "osmo1payer")
    vaaEx transferEx "uosmo" "osmo" "osmo1bridge" addr20Ex
    (by decide) (by decide) rfl rfl rfl (by decide)

/-- C6 counterexample: an environment whose wrapped-registry query answers with
the empty string — getForeignAsset returns a non-null value, yet
mustGetForeignAsset fails with NotRegistered, because the guard tests JavaScript
falsiness rather than null. -/
theorem claim6_mustGet_counterexample :
    (getForeignAsset envEmptyResp none tokEx (.name "osmosis")).1 = .ok (some "")
    ∧ (mustGetForeignAsset envEmptyResp none tokEx (.name "osmosis")).1 =
        .error (.notRegistered "token not registered") :=
  ⟨rfl, rfl⟩

/-- C6 (amended): mustGetForeignAsset returns exactly getForeignAsset's result
when that result is a non-null, non-empty address; it fails with NotRegistered
when getForeignAsset returns null or the empty string (the guard tests JS
falsiness); and it propagates getForeignAsset's errors unchanged. -/
theorem claim6_mustGet_amended (env : Env) (st : Option Client) (tokenId : TokenId)
    (chain : ChainRef) :
    (∀ s, (getForeignAsset env st tokenId chain).1 = .ok (some s) → s ≠ "" →
        (mustGetForeignAsset env st tokenId chain).1 = .ok s)
    ∧ ((getForeignAsset env st tokenId chain).1 = .ok none →
        (mustGetForeignAsset env st tokenId chain).1 =
          .error (.notRegistered "token not registered"))
    ∧ ((getForeignAsset env st tokenId chain).1 = .ok (some "") →
        (mustGetForeignAsset env st tokenId chain).1 =
          .error (.notRegistered "token not registered"))
    ∧ (∀ e, (getForeignAsset env st tokenId chain).1 = .error e →
        (mustGetForeignAsset env st tokenId chain).1 = .error e) := by
  rcases hg : getForeignAsset env st tokenId chain with ⟨r, st', ops⟩
  refine ⟨?_, ?_, ?_, ?_⟩
  · intro s hs hne
    dsimp at hs
    subst hs
    simp [mustGetForeignAsset, hg, jsFalsyOptStr, hne]
  · intro hs
    dsimp at hs
    subst hs
    simp [mustGetForeignAsset, hg, jsFalsyOptStr]
  · intro hs
    dsimp at hs
    subst hs
    simp [mustGetForeignAsset, hg, jsFalsyOptStr]
  · intro e hs
    dsimp at hs
    subst hs
    simp [mustGetForeignAsset, hg]

/-- C6 witness: the amended statement's null branch at a concrete environment
whose registry has no wrapped asset. -/
theorem claim6_mustGet_witness :
    (mustGetForeignAsset envEx none tokEx (.name "osmosis")).1 =
      .error (.notRegistered "token not registered") :=
  (claim6_mustGet_amended envEx none tokEx (.name "osmosis")).2.1 rfl

/-- C8: isTransferCompleted resolves the token-bridge contract from the
context's own chain while creating the client for destChain: starting from a
fresh context it connects to destChain's RPC endpoint and addresses the
is_vaa_redeemed query to this.chain's configured token-bridge contract. -/
theorem claim8_isTransferCompleted (env : Env) (thisChain destChain : ChainRef)
    (signedVaa : String) (cs : Contracts) (tb r : String) (bytes : List Nat)
    (hcs : env.contractsFor (toChainName env.reg thisChain) = some cs)
    (htb : cs.token_bridge = some tb)
    (hrpc : env.rpcs (toChainName env.reg destChain) = some r)
    (hhex : jsArrayify signedVaa = some bytes) :
    isTransferCompleted env thisChain none destChain signedVaa =
      (.ok (env.vaaRedeemedQuery tb (base64Encode bytes)),
       some { rpc := r },
       [.connect r, .query tb (.isVaaRedeemed (base64Encode bytes))]) := by
  simp [isTransferCompleted, mustGetContractsM, getCosmWasmClient, hcs, htb, hrpc, hhex]

/-- C8 witness: a context whose own chain is osmosis queried for completion on
wormchain — the client connects to wormchain's RPC, but the query goes to the
token bridge configured for osmosis. -/
theorem claim8_isTransferCompleted_witness :
    isTransferCompleted envEx (.name "osmosis") none (.name "wormchain") "0x0102" =
      (.ok (envEx.vaaRedeemedQuery "osmo1bridge" (base64Encode [1, 2])),
       some { rpc := "http://wormchain.rpc" },
       [.connect "http://wormchain.rpc",
        .query "osmo1bridge" (.isVaaRedeemed (base64Encode [1, 2]))]) :=
  claim8_isTransferCompleted envEx (.name "osmosis") (.name "wormchain") "0x0102"
    contractsEx "osmo1bridge" "http://wormchain.rpc" [1, 2] rfl rfl rfl rfl

/-- C9: the CosmWasm client is created at most once per context — with a cached
client every call returns it and ignores its chain argument, and the chain of
the first (creating) call determines the RPC endpoint all later calls use. -/
theorem claim9_clientCache (env : Env) (c : Client) (chain1 chain2 : ChainRef) (r : String)
    (h : env.rpcs (toChainName env.reg chain1) = some r) :
    (∀ ch, getCosmWasmClient env ch (some c) = (.ok c, some c, []))
    ∧ getCosmWasmClient env chain1 none =
        (.ok { rpc := r }, some { rpc := r }, [.connect r])
    ∧ (∀ st' ops cl, getCosmWasmClient env chain1 none = (.ok cl, st', ops) →
        getCosmWasmClient env chain2 st' = (.ok cl, st', [])) := by
  have h2 : getCosmWasmClient env chain1 none =
      (.ok { rpc := r }, some { rpc := r }, [.connect r]) := by
    simp [getCosmWasmClient, h]
  refine ⟨fun ch => rfl, h2, ?_⟩
  intro st' ops cl heq
  rw [h2] at heq
  simp at heq
  obtain ⟨e1, e2, e3⟩ := heq
  subst e1
  subst e2
  rfl

/-- C9 witness: after the first call connected using osmosis' RPC, a call
passing wormchain still returns the osmosis-connected client. -/
theorem claim9_clientCache_witness :
    getCosmWasmClient envEx (.name "wormchain") (some { rpc := "http://osmosis.rpc" }) =
      (.ok { rpc := "http://osmosis.rpc" }, some { rpc := "http://osmosis.rpc" }, [])
    ∧ getCosmWasmClient envEx (.name "osmosis") none =
      (.ok { rpc := "http://osmosis.rpc" }, some { rpc := "http://osmosis.rpc" },
        [.connect "http://osmosis.rpc"]) :=
  ⟨(claim9_clientCache envEx { rpc := "http://osmosis.rpc" } (.name "osmosis")
      (.name "wormchain") "http://osmosis.rpc" rfl).1 (.name "wormchain"),
   (claim9_clientCache envEx { rpc := "http://osmosis.rpc" } (.name "osmosis")
      (.name "wormchain") "http://osmosis.rpc" rfl).2.1⟩

/-- C10 witness: the equivalence and the failure case at a numeric chain id,
which is never a key of the prefix table. -/
theorem claim10_witness :
    cosmosParseAssetAddress (.id 7) (.bytes bytes20Ex) =
        cosmosParseAddress (.id 7) (.bytes bytes20Ex)
    ∧ cosmosParseAssetAddress (.id 7) (.bytes bytes20Ex) =
        .error (.configurationError "Prefix not found for chain") :=
  ⟨(claim10_parseAssetAddress_eq_parseAddress (.id 7) (.bytes bytes20Ex)).1,
   (claim10_parseAssetAddress_eq_parseAddress (.id 7) (.bytes bytes20Ex)).2 rfl⟩

end WormholeCosmos
